import Mathlib

/-!
# Verification of the 5-DOF robotic-arm controller

A shallow embedding of `src/hardware/robotic_arm/src/main.cpp`
(planar inverse kinematics, joint state, movement commands and the two
command grammars), together with proofs of the specified properties.

Floating-point (`float`) arithmetic of the source is modelled over `ℝ`.
Servo writes and serial printing are external effects (actuator driver /
status output per the spec) and are not part of the state model; the
interpolation loop only performs servo writes, so a move is modelled by
its final committed state together with a structured outcome.
-/

open Real

noncomputable section

/-- Arduino macro `constrain(amt, low, high)`:
`(amt)<(low)?(low):((amt)>(high)?(high):(amt))`. -/
def constrain (x lo hi : ℝ) : ℝ :=
  if x < lo then lo else if x > hi then hi else x

/-- C library `atan2(a, b)`: the angle of the point `(b, a)`, in `(-π, π]`.
`Complex.arg ⟨b, a⟩` computes exactly this value in every quadrant
(`atan2(0,0)` is modelled as `0`). -/
def atan2 (a b : ℝ) : ℝ := Complex.arg ⟨b, a⟩

-- ============== ARM DIMENSIONS (in cm) ==============

/-- Source `const float L0 = 7.2;` base height (ground to shoulder pivot). -/
def L0 : ℝ := 7.2
/-- Source `const float L1 = 7.5;` upper arm length (shoulder to elbow). -/
def L1 : ℝ := 7.5
/-- Source `const float L2 = 17.5;` forearm length (elbow to end effector). -/
def L2 : ℝ := 17.5

-- ============== SERVO LIMITS / OFFSETS / WORKSPACE ==============

/-- Source `const int SERVO_MIN = 0;` -/
def SERVO_MIN : ℝ := 0
/-- Source `const int SERVO_MAX = 180;` -/
def SERVO_MAX : ℝ := 180
/-- Source `const int BASE_OFFSET = 45;` -/
def BASE_OFFSET : ℝ := 45
/-- Source `const int WRIST_HOME = 85;` -/
def WRIST_HOME : ℝ := 85
/-- Source `const int GRIPPER_OPEN = 90;` -/
def GRIPPER_OPEN : ℝ := 90
/-- Source `const int GRIPPER_CALM = 40;` -/
def GRIPPER_CALM : ℝ := 40
/-- Source `const int GRIPPER_TIGHT = 0;` -/
def GRIPPER_TIGHT : ℝ := 0
/-- Source `const float Y_MIN = 5.0;` -/
def Y_MIN : ℝ := 5.0
/-- Source `const float Y_MAX = 40.0;` -/
def Y_MAX : ℝ := 40.0
/-- Source `const float Z_MIN = 5.0;` -/
def Z_MIN : ℝ := 5.0
/-- Source `const float Z_MAX = 30.0;` -/
def Z_MAX : ℝ := 30.0

-- ============== INVERSE KINEMATICS (calculateIK) ==============
-- The local values of `calculateIK` are hoisted to named definitions.

/-- Source `float dist = sqrt(y * y + zAdj * zAdj);` with `zAdj = z - L0` (named `dist` in the source; renamed to avoid clashing with the metric-space `dist`). -/
def ikDist (y z : ℝ) : ℝ := Real.sqrt (y * y + (z - L0) * (z - L0))

/-- Source `float maxReach = L1 + L2 - 0.5;` -/
def maxReach : ℝ := L1 + L2 - 0.5

/-- Source `float minReach = abs(L1 - L2) + 0.5;` -/
def minReach : ℝ := |L1 - L2| + 0.5

/-- Source `cosElbow = constrain((L1*L1 + L2*L2 - dist*dist) / (2.0*L1*L2), -1.0, 1.0);` -/
def cosElbow (y z : ℝ) : ℝ :=
  constrain ((L1 * L1 + L2 * L2 - ikDist y z * ikDist y z) / (2.0 * L1 * L2)) (-1.0) 1.0

/-- Source `elbow = 180.0 - (acos(cosElbow) * 180.0 / PI);` (logical elbow angle). -/
def elbowOf (y z : ℝ) : ℝ :=
  180.0 - Real.arccos (cosElbow y z) * 180.0 / π

/-- Source `cosBeta = constrain((L1*L1 + dist*dist - L2*L2) / (2.0*L1*dist), -1.0, 1.0);` -/
def cosBeta (y z : ℝ) : ℝ :=
  constrain ((L1 * L1 + ikDist y z * ikDist y z - L2 * L2) / (2.0 * L1 * ikDist y z)) (-1.0) 1.0

/-- Source `shoulder = (atan2(zAdj, y) + acos(cosBeta)) * 180.0 / PI;` (logical shoulder angle). -/
def shoulderOf (y z : ℝ) : ℝ :=
  (atan2 (z - L0) y + Real.arccos (cosBeta y z)) * 180.0 / π

/-- Source `bool calculateIK(float y, float z, float &shoulder, float &elbow)`:
`none` models `return false` (reported as out-of-reach), `some (shoulder, elbow)`
models `return true` with the two output references written. -/
def calculateIK (y z : ℝ) : Option (ℝ × ℝ) :=
  if ikDist y z > maxReach ∨ ikDist y z < minReach then none
  else if shoulderOf y z < SERVO_MIN ∨ shoulderOf y z > SERVO_MAX ∨
          elbowOf y z < SERVO_MIN ∨ elbowOf y z > SERVO_MAX then none
  else some (shoulderOf y z, elbowOf y z)

-- ============== FORWARD KINEMATICS (spec relation) ==============

/-- Degrees to radians, `deg * PI / 180`. -/
def toRad (d : ℝ) : ℝ := d * π / 180

/-- Forward-kinematics Y for logical angles `(s, e)` (spec §3/§8 relation):
the shoulder ray at `s°` from horizontal carries the upper arm `L1`; the
logical elbow angle `e` leaves an interior elbow angle of `180° - e`, so the
forearm `L2` points at `(s - e)°` from horizontal reversed, giving
`y = L1·cos s° + L2·cos (s - e)°`. -/
def fkY (s e : ℝ) : ℝ :=
  L1 * Real.cos (toRad s) + L2 * Real.cos (toRad (s - e))

/-- Forward-kinematics Z for logical angles `(s, e)`:
`z = L0 + L1·sin s° + L2·sin (s - e)°`. -/
def fkZ (s e : ℝ) : ℝ :=
  L0 + L1 * Real.sin (toRad s) + L2 * Real.sin (toRad (s - e))

-- ============== GLOBAL STATE ==============

/-- The mutable globals of the program: end-effector position (cm) and the
five logical joint angles (degrees). -/
structure ArmState where
  currentY : ℝ
  currentZ : ℝ
  shoulderAngle : ℝ
  elbowAngle : ℝ
  baseAngle : ℝ
  wristAngle : ℝ
  gripperAngle : ℝ
  deriving DecidableEq

/-- The initial values of the globals (`currentY = 17.5`, `currentZ = 15.0`,
`shoulderAngle = 90`, `elbowAngle = 90`, `baseAngle = 90`, `wristAngle = 85`,
`gripperAngle = 40`); `setup()` then calls `goToHome()`, which commits these
same values again. -/
def initState : ArmState :=
  { currentY := 17.5, currentZ := 15.0, shoulderAngle := 90, elbowAngle := 90,
    baseAngle := 90, wristAngle := 85, gripperAngle := 40 }

/-- The structured outcome of one command (spec `MotionResult` reasons). -/
inductive Reason where
  | outOfReach
  | invalidFormat
  | invalidPosition
  | unknownDirection
  | unknownCommand
  deriving DecidableEq

/-- Spec `MotionResult`: `Ok` or `Error(reason)`. -/
inductive MotionResult where
  | ok
  | error (r : Reason)
  deriving DecidableEq

-- ============== SERVO SETTERS ==============

/-- Source `void setBase(float angle)`: clamps via
`constrain(angle, SERVO_MIN, SERVO_MAX - BASE_OFFSET)`, interpolates servo
writes (external), then stores `baseAngle`. -/
def setBase (s : ArmState) (angle : ℝ) : ArmState :=
  { s with baseAngle := constrain angle SERVO_MIN (SERVO_MAX - BASE_OFFSET) }

/-- Source `void setWrist(float angle)`: clamps via
`constrain(angle, SERVO_MIN, SERVO_MAX)`, then stores `wristAngle`. -/
def setWrist (s : ArmState) (angle : ℝ) : ArmState :=
  { s with wristAngle := constrain angle SERVO_MIN SERVO_MAX }

/-- Source `void setGripper(float angle)`: clamps via
`constrain(angle, GRIPPER_TIGHT, GRIPPER_OPEN)`, then stores `gripperAngle`. -/
def setGripper (s : ArmState) (angle : ℝ) : ArmState :=
  { s with gripperAngle := constrain angle GRIPPER_TIGHT GRIPPER_OPEN }

/-- Source `void openGripper()`: `setGripper(GRIPPER_OPEN)`. -/
def openGripper (s : ArmState) : ArmState := setGripper s GRIPPER_OPEN

/-- Source `void closeGripper(bool tight)`: `setGripper(GRIPPER_TIGHT)` when tight,
else `setGripper(GRIPPER_CALM)`. -/
def closeGripper (s : ArmState) (tight : Bool) : ArmState :=
  if tight then setGripper s GRIPPER_TIGHT else setGripper s GRIPPER_CALM

-- ============== MOVEMENT FUNCTIONS ==============

/-- Source `void moveToPosition(float targetY, float targetZ)`: clamp the target to
the workspace, run `calculateIK`; on failure print
"Movement cancelled - position unreachable" (outcome `OutOfReach`) and leave
the state untouched; on success interpolate servo writes (external) and then
commit `shoulderAngle`, `elbowAngle`, `currentY`, `currentZ` together. -/
def moveToPosition (s : ArmState) (targetY targetZ : ℝ) : ArmState × MotionResult :=
  let tY := constrain targetY Y_MIN Y_MAX
  let tZ := constrain targetZ Z_MIN Z_MAX
  match calculateIK tY tZ with
  | none => (s, .error .outOfReach)
  | some (sh, el) =>
    ({ s with shoulderAngle := sh, elbowAngle := el, currentY := tY, currentZ := tZ }, .ok)

/-- Source `void moveRelative(float deltaY, float deltaZ)`:
`moveToPosition(currentY + deltaY, currentZ + deltaZ)`. -/
def moveRelative (s : ArmState) (deltaY deltaZ : ℝ) : ArmState × MotionResult :=
  moveToPosition s (s.currentY + deltaY) (s.currentZ + deltaZ)

/-- Source `void goToHome()`: `setBase(90); setWrist(WRIST_HOME); setGripper(GRIPPER_CALM);`
then interpolate to the home IK angles (servo writes, external) and commit
`shoulderAngle = 90`, `elbowAngle = 90`, `currentY = 17.5`, `currentZ = 15.0`. -/
def goToHome (s : ArmState) : ArmState :=
  let s1 := setBase s 90
  let s2 := setWrist s1 WRIST_HOME
  let s3 := setGripper s2 GRIPPER_CALM
  { s3 with shoulderAngle := 90.0, elbowAngle := 90.0, currentY := 17.5, currentZ := 15.0 }

-- ============== STRING / NUMBER PARSING ==============
-- Command lines are modelled as `List Char`.

/-- Value of a digit string, most significant first (`0` for `[]`). -/
def natOfDigits (ds : List Char) : ℕ :=
  ds.foldl (fun n c => 10 * n + (c.toNat - 48)) 0

/-- Arduino `String::toFloat` (C `atof`), split into a structural part: skip
leading spaces, optional sign, integer digits, optional fractional digits
after a dot; parsing stops at the first character that does not fit, and a
string with no leading numeric part yields `0`. (Exponent suffixes are not
used by any command and are not modelled.) The parsed value is returned
exactly, as a signed decimal mantissa `m` and scale `k` meaning `m / 10^k`. -/
def parseFloatRep (cs : List Char) : ℤ × ℕ :=
  let cs1 := cs.dropWhile (fun c => c = ' ')
  let neg : Bool := cs1.headD 'x' = '-'
  let cs2 := if cs1.headD 'x' = '-' ∨ cs1.headD 'x' = '+' then cs1.drop 1 else cs1
  let intPart := cs2.takeWhile Char.isDigit
  let rest := cs2.dropWhile Char.isDigit
  let frac := if rest.headD 'x' = '.' then (rest.drop 1).takeWhile Char.isDigit else []
  let mag : ℤ := natOfDigits intPart * 10 ^ frac.length + natOfDigits frac
  (if neg then -mag else mag, frac.length)

/-- The `toFloat` value as a real number (the `float` result modelled over `ℝ`). -/
def toFloat (cs : List Char) : ℝ :=
  ((parseFloatRep cs).1 : ℝ) / 10 ^ (parseFloatRep cs).2

/-- Source `String::toUpperCase` (ASCII, in place). -/
def upper (cs : List Char) : List Char := cs.map Char.toUpper

/-- Source `String::toLowerCase` (ASCII, in place). -/
def lower (cs : List Char) : List Char := cs.map Char.toLower

/-- Source `String::indexOf(c)`: index of the first occurrence, or `-1` when the
character does not occur (the C `int` result). -/
def indexOfZ (cs : List Char) (c : Char) : ℤ :=
  match cs.findIdx? (fun x => x = c) with
  | some i => i
  | none => -1

-- ============== SERIAL COMMAND PROCESSOR (single letter) ==============

/-- Helper for the `case 'G'` branch: `input.indexOf(',')`, and if
`commaIdx > 0` then `moveToPosition(substring(1, commaIdx).toFloat(),
substring(commaIdx + 1).toFloat())`, else the format error. -/
def serialG (s : ArmState) (u : List Char) : ArmState × MotionResult :=
  let commaIdx := indexOfZ u ','
  if commaIdx > 0 then
    moveToPosition s (toFloat ((u.take commaIdx.toNat).drop 1))
      (toFloat (u.drop (commaIdx.toNat + 1)))
  else (s, .error .invalidFormat)

/-- Source `void processSerialCommand(String input)`: uppercase the line, branch on
`charAt(0)`, parse `substring(1).toFloat()` as the operand. Outcomes model the
structured result of the dispatched operation (`Error` reasons for the
explicit error prints, `OutOfReach` passed through from a cancelled move). -/
def processSerialCommand (s : ArmState) (input : List Char) : ArmState × MotionResult :=
  let u := upper input
  let c := u.headD '?'
  let value : ℝ := if u.length > 1 then toFloat (u.drop 1) else 0
  if c = 'F' then moveRelative s value 0
  else if c = 'B' then moveRelative s (-value) 0
  else if c = 'U' then moveRelative s 0 value
  else if c = 'D' then moveRelative s 0 (-value)
  else if c = 'G' then serialG s u
  else if c = 'H' then (goToHome s, .ok)
  else if c = 'P' then (s, .ok)
  else if c = 'R' then (setBase s value, .ok)
  else if c = 'W' then (setWrist s value, .ok)
  else if c = 'C' then (setGripper s value, .ok)
  else if c = 'O' then (openGripper s, .ok)
  else if c = 'X' then (closeGripper s false, .ok)
  else if c = 'T' then (closeGripper s true, .ok)
  else (s, .error .unknownCommand)

-- ============== BLUETOOTH COMMAND PROCESSOR (colon format) ==============

/-- The `move` family: `move:<direction>[:<cm>]` with a 5 cm default. -/
def btMove (s : ArmState) (remainder : List Char) : ArmState × MotionResult :=
  let secondColon := indexOfZ remainder ':'
  let direction := if secondColon ≥ 0 then remainder.take secondColon.toNat else remainder
  let value : ℝ :=
    if secondColon ≥ 0 then toFloat (remainder.drop (secondColon.toNat + 1)) else 5.0
  if direction = "forward".data then moveRelative s value 0
  else if direction = "backward".data then moveRelative s (-value) 0
  else if direction = "up".data then moveRelative s 0 value
  else if direction = "down".data then moveRelative s 0 (-value)
  else (s, .error .unknownDirection)

/-- The `position:<y>,<z>` family. -/
def btPosition (s : ArmState) (remainder : List Char) : ArmState × MotionResult :=
  let commaIdx := indexOfZ remainder ','
  if commaIdx > 0 then
    moveToPosition s (toFloat (remainder.take commaIdx.toNat))
      (toFloat (remainder.drop (commaIdx.toNat + 1)))
  else (s, .error .invalidPosition)

/-- The `gripper:<open|close|tight|angle>` family (an unrecognized word is
treated as an angle via `toFloat`). -/
def btGripper (s : ArmState) (remainder : List Char) : ArmState × MotionResult :=
  if remainder = "open".data then (openGripper s, .ok)
  else if remainder = "close".data then (closeGripper s false, .ok)
  else if remainder = "tight".data then (closeGripper s true, .ok)
  else (setGripper s (toFloat remainder), .ok)

/-- Source `void processBluetoothCommand(String input)`: lowercase the line; bare
`home`/`status` first; otherwise split at the first colon and branch on the
command token. -/
def processBluetoothCommand (s : ArmState) (input : List Char) : ArmState × MotionResult :=
  let l := lower input
  if l = "home".data then (goToHome s, .ok)
  else if l = "status".data then (s, .ok)
  else
    let firstColon := indexOfZ l ':'
    if firstColon < 0 then (s, .error .invalidFormat)
    else
      let command := l.take firstColon.toNat
      let remainder := l.drop (firstColon.toNat + 1)
      if command = "move".data then btMove s remainder
      else if command = "position".data then btPosition s remainder
      else if command = "base".data then (setBase s (toFloat remainder), .ok)
      else if command = "wrist".data then (setWrist s (toFloat remainder), .ok)
      else if command = "gripper".data then btGripper s remainder
      else (s, .error .unknownCommand)

-- ============== REACHABLE STATES ==============

/-- The states the program can be in after startup and after each completed
command, from either channel. -/
inductive Reachable : ArmState → Prop where
  | init : Reachable initState
  | serial (s : ArmState) (input : List Char) :
      Reachable s → Reachable (processSerialCommand s input).1
  | bluetooth (s : ArmState) (input : List Char) :
      Reachable s → Reachable (processBluetoothCommand s input).1

end

-- ============== BASIC LEMMAS ==============

theorem constrain_of_mem {x lo hi : ℝ} (h1 : lo ≤ x) (h2 : x ≤ hi) :
    constrain x lo hi = x := by
  unfold constrain
  rw [if_neg (by linarith), if_neg (by linarith)]

theorem constrain_eq_max_min {x lo hi : ℝ} (h : lo ≤ hi) :
    constrain x lo hi = max lo (min x hi) := by
  unfold constrain
  rcases lt_or_le x lo with h1 | h1
  · rw [if_pos h1, max_eq_left]
    exact min_le_of_left_le h1.le
  · rw [if_neg (not_lt.mpr h1)]
    rcases lt_or_le hi x with h2 | h2
    · rw [if_pos h2, min_eq_right h2.le, max_eq_right h]
    · rw [if_neg (not_lt.mpr h2), min_eq_left h2, max_eq_right h1]

theorem constrain_mem {x lo hi : ℝ} (h : lo ≤ hi) :
    lo ≤ constrain x lo hi ∧ constrain x lo hi ≤ hi := by
  unfold constrain
  split_ifs with h1 h2 <;> constructor <;> linarith

theorem constrain_idem {x lo hi : ℝ} (h : lo ≤ hi) :
    constrain (constrain x lo hi) lo hi = constrain x lo hi :=
  constrain_of_mem (constrain_mem h).1 (constrain_mem h).2

theorem toFloat_ten : toFloat "10".data = 10 := by
  rw [toFloat, show parseFloatRep "10".data = (10, 0) from by decide]
  norm_num

theorem toFloat_hundred : toFloat "100".data = 100 := by
  rw [toFloat, show parseFloatRep "100".data = (100, 0) from by decide]
  norm_num

theorem toFloat_150 : toFloat "150".data = 150 := by
  rw [toFloat, show parseFloatRep "150".data = (150, 0) from by decide]
  norm_num

theorem toFloat_91 : toFloat "91".data = 91 := by
  rw [toFloat, show parseFloatRep "91".data = (91, 0) from by decide]
  norm_num

theorem toFloat_neg10 : toFloat "-10".data = -10 := by
  rw [toFloat, show parseFloatRep "-10".data = (-10, 0) from by decide]
  norm_num

theorem toFloat_abc : toFloat "abc".data = 0 := by
  rw [toFloat, show parseFloatRep "abc".data = (0, 0) from by decide]
  norm_num

/-- Source `goToHome` commits the same fixed pose from every starting state. -/
theorem goToHome_eq (s : ArmState) : goToHome s = initState := by
  unfold goToHome setBase setWrist setGripper initState
  rw [constrain_of_mem (by rw [SERVO_MIN]; norm_num)
        (by rw [SERVO_MAX, BASE_OFFSET]; norm_num),
      constrain_of_mem (by rw [SERVO_MIN, WRIST_HOME]; norm_num)
        (by rw [SERVO_MAX, WRIST_HOME]; norm_num),
      constrain_of_mem (by rw [GRIPPER_TIGHT, GRIPPER_CALM]; norm_num)
        (by rw [GRIPPER_OPEN, GRIPPER_CALM]; norm_num)]
  rw [WRIST_HOME, GRIPPER_CALM]
  norm_num

-- ============== CLAIM THEOREMS ==============

/-- C8: the home command is idempotent on the joint state: from every
starting pose, issuing home twice leaves exactly the same pose
(Y = 17.5, Z = 15.0, shoulder = 90, elbow = 90, base = 90, wrist = 85,
gripper = 40) as issuing it once. -/
theorem home_idempotent (s : ArmState) :
    goToHome (goToHome s) = goToHome s ∧
    goToHome s = { currentY := 17.5, currentZ := 15.0, shoulderAngle := 90,
                   elbowAngle := 90, baseAngle := 90, wristAngle := 85,
                   gripperAngle := 40 } := by
  rw [goToHome_eq, goToHome_eq]
  exact ⟨rfl, rfl⟩

/-- C7: every angle setter clamps its input to the joint's valid logical
range before storing: `setWrist` to [0, 180], `setBase` to
[0, 180 − BASE_OFFSET] = [0, 135], `setGripper` to [0, 90]; `gripper:150`
and `gripper:91` both store gripper angle 90, `gripper:-10` stores 0, and
in each case the command proceeds (outcome `ok`, clamping silent). -/
theorem setters_clamp (s : ArmState) (a : ℝ) :
    (setWrist s a).wristAngle = max 0 (min a 180) ∧
    (setBase s a).baseAngle = max 0 (min a 135) ∧
    (setGripper s a).gripperAngle = max 0 (min a 90) ∧
    (processBluetoothCommand s "gripper:150".data).1.gripperAngle = 90 ∧
    (processBluetoothCommand s "gripper:150".data).2 = .ok ∧
    (processBluetoothCommand s "gripper:91".data).1.gripperAngle = 90 ∧
    (processBluetoothCommand s "gripper:91".data).2 = .ok ∧
    (processBluetoothCommand s "gripper:-10".data).1.gripperAngle = 0 ∧
    (processBluetoothCommand s "gripper:-10".data).2 = .ok := by
  have hw : (setWrist s a).wristAngle = constrain a SERVO_MIN SERVO_MAX := rfl
  have hb : (setBase s a).baseAngle = constrain a SERVO_MIN (SERVO_MAX - BASE_OFFSET) := rfl
  have hg : ∀ x : ℝ, (setGripper s x).gripperAngle = constrain x GRIPPER_TIGHT GRIPPER_OPEN :=
    fun x => rfl
  have h150 : processBluetoothCommand s "gripper:150".data
      = (setGripper s (toFloat "150".data), .ok) := rfl
  have h91 : processBluetoothCommand s "gripper:91".data
      = (setGripper s (toFloat "91".data), .ok) := rfl
  have hm10 : processBluetoothCommand s "gripper:-10".data
      = (setGripper s (toFloat "-10".data), .ok) := rfl
  refine ⟨?_, ?_, ?_, ?_, by rw [h150], ?_, by rw [h91], ?_, by rw [hm10]⟩
  · rw [hw, SERVO_MIN, SERVO_MAX, constrain_eq_max_min (by norm_num)]
  · rw [hb, SERVO_MIN, SERVO_MAX, BASE_OFFSET,
        show (180 : ℝ) - 45 = 135 by norm_num, constrain_eq_max_min (by norm_num)]
  · rw [hg, GRIPPER_TIGHT, GRIPPER_OPEN, constrain_eq_max_min (by norm_num)]
  · rw [h150]
    show (setGripper s (toFloat "150".data)).gripperAngle = 90
    rw [hg, toFloat_150, GRIPPER_TIGHT, GRIPPER_OPEN, constrain, if_neg (by norm_num),
        if_pos (by norm_num)]
  · rw [h91]
    show (setGripper s (toFloat "91".data)).gripperAngle = 90
    rw [hg, toFloat_91, GRIPPER_TIGHT, GRIPPER_OPEN, constrain, if_neg (by norm_num),
        if_pos (by norm_num)]
  · rw [hm10]
    show (setGripper s (toFloat "-10".data)).gripperAngle = 0
    rw [hg, toFloat_neg10, GRIPPER_TIGHT, GRIPPER_OPEN, constrain, if_pos (by norm_num)]

/-- C5: from every starting pose, the compact command `F10` and the field
command `move:forward:10` both reduce to the call `moveRelative 10 0` and
produce identical resulting joint state. -/
theorem grammar_equiv (s : ArmState) :
    processSerialCommand s "F10".data = moveRelative s 10 0 ∧
    processBluetoothCommand s "move:forward:10".data = moveRelative s 10 0 ∧
    (processSerialCommand s "F10".data).1
      = (processBluetoothCommand s "move:forward:10".data).1 := by
  have h1 : processSerialCommand s "F10".data = moveRelative s (toFloat "10".data) 0 := rfl
  have h2 : processBluetoothCommand s "move:forward:10".data
      = moveRelative s (toFloat "10".data) 0 := rfl
  rw [h1, h2, toFloat_ten]
  exact ⟨rfl, rfl, rfl⟩

/-- The workspace-clamped target of `G100,100` is geometrically unreachable:
its planar distance √2119.84 from the shoulder exceeds `maxReach = 24.5`. -/
theorem calculateIK_40_30 : calculateIK 40 30 = none := by
  have hd : ikDist 40 30 > maxReach := by
    rw [ikDist, maxReach, L0, L1, L2,
        show (40 * 40 + (30 - 7.2) * (30 - 7.2) : ℝ) = 2119.84 by norm_num,
        show (7.5 + 17.5 - 0.5 : ℝ) = 24.5 by norm_num, gt_iff_lt,
        Real.lt_sqrt (by norm_num)]
    norm_num
  rw [calculateIK, if_pos (Or.inl hd)]

theorem constrain_100_Y : constrain 100 Y_MIN Y_MAX = 40 := by
  rw [constrain, Y_MIN, Y_MAX, if_neg (by norm_num), if_pos (by norm_num)]
  norm_num

theorem constrain_100_Z : constrain 100 Z_MIN Z_MAX = 30 := by
  rw [constrain, Z_MIN, Z_MAX, if_neg (by norm_num), if_pos (by norm_num)]
  norm_num

/-- C4: an absolute-position move first clamps the target to the workspace
box silently and only then runs the IK solver; if the clamped point is still
unreachable the command fails with `OutOfReach` and the entire pose is
unchanged — in particular, `G100,100` (i.e. `moveToPosition 100 100`) fails
with `OutOfReach` and leaves the pose untouched. -/
theorem moveToPosition_clamps_then_solves (s : ArmState) (y z : ℝ) :
    moveToPosition s y z
      = moveToPosition s (constrain y Y_MIN Y_MAX) (constrain z Z_MIN Z_MAX) ∧
    (calculateIK (constrain y Y_MIN Y_MAX) (constrain z Z_MIN Z_MAX) = none →
      moveToPosition s y z = (s, .error .outOfReach)) ∧
    moveToPosition s 100 100 = (s, .error .outOfReach) := by
  have hY : Y_MIN ≤ Y_MAX := by rw [Y_MIN, Y_MAX]; norm_num
  have hZ : Z_MIN ≤ Z_MAX := by rw [Z_MIN, Z_MAX]; norm_num
  refine ⟨?_, ?_, ?_⟩
  · show moveToPosition s y z = _
    rw [moveToPosition, moveToPosition, constrain_idem hY, constrain_idem hZ]
  · intro h
    rw [moveToPosition, h]
  · rw [moveToPosition, constrain_100_Y, constrain_100_Z, calculateIK_40_30]

/-- Witness for C4 at the concrete command `G100,100` from the home pose. -/
theorem moveToPosition_clamps_witness :
    moveToPosition initState 100 100 = (initState, .error .outOfReach) :=
  (moveToPosition_clamps_then_solves initState 100 100).2.1
    (by rw [constrain_100_Y, constrain_100_Z]; exact calculateIK_40_30)


/-- Inversion for `calculateIK`: success states exactly that the distance
test and the servo-limit post-check both pass, and returns the computed
logical angles. -/
theorem calculateIK_some_iff {y z : ℝ} {p : ℝ × ℝ} :
    calculateIK y z = some p ↔
      ¬(ikDist y z > maxReach ∨ ikDist y z < minReach) ∧
      ¬(shoulderOf y z < SERVO_MIN ∨ shoulderOf y z > SERVO_MAX ∨
        elbowOf y z < SERVO_MIN ∨ elbowOf y z > SERVO_MAX) ∧
      p = (shoulderOf y z, elbowOf y z) := by
  rw [calculateIK]
  split_ifs with h1 h2 <;> simp_all [eq_comm]

/-- C1: `calculateIK` fails exactly when the planar distance
√(y² + (z − L0)²) exceeds `L1 + L2 − 0.5`, or falls below `|L1 − L2| + 0.5`,
or (the distance test passing) a computed logical angle lies outside
[0°, 180°]; in every other case it succeeds and returns both angles. -/
theorem calculateIK_fails_iff (y z : ℝ) :
    (calculateIK y z = none ↔
      Real.sqrt (y ^ 2 + (z - L0) ^ 2) > L1 + L2 - 0.5 ∨
      Real.sqrt (y ^ 2 + (z - L0) ^ 2) < |L1 - L2| + 0.5 ∨
      (¬(Real.sqrt (y ^ 2 + (z - L0) ^ 2) > L1 + L2 - 0.5 ∨
         Real.sqrt (y ^ 2 + (z - L0) ^ 2) < |L1 - L2| + 0.5) ∧
        (shoulderOf y z < 0 ∨ shoulderOf y z > 180 ∨
         elbowOf y z < 0 ∨ elbowOf y z > 180))) ∧
    (calculateIK y z ≠ none →
      calculateIK y z = some (shoulderOf y z, elbowOf y z)) := by
  have hd : Real.sqrt (y ^ 2 + (z - L0) ^ 2) = ikDist y z := by
    rw [ikDist]; congr 1; ring
  have hcases : calculateIK y z = none ∨
      calculateIK y z = some (shoulderOf y z, elbowOf y z) := by
    rw [calculateIK]; split_ifs <;> simp
  constructor
  · rw [hd, calculateIK,
        show L1 + L2 - 0.5 = maxReach from rfl,
        show |L1 - L2| + 0.5 = minReach from rfl,
        show (0 : ℝ) = SERVO_MIN from rfl,
        show (180 : ℝ) = SERVO_MAX from rfl]
    by_cases h1 : ikDist y z > maxReach ∨ ikDist y z < minReach
    · rw [if_pos h1]; simp [h1]
    · rw [if_neg h1]
      by_cases h2 : shoulderOf y z < SERVO_MIN ∨ shoulderOf y z > SERVO_MAX ∨
          elbowOf y z < SERVO_MIN ∨ elbowOf y z > SERVO_MAX
      · rw [if_pos h2]; simp [h1, h2]
      · rw [if_neg h2]; simp [h1, h2]
  · intro hne
    rcases hcases with h | h
    · exact absurd h hne
    · exact h

-- ============== THE CONCRETE SOLVE AT (12.5, 7.2) ==============
-- At this target `zAdj = 0`, `dist = 12.5` exactly, `cosBeta = -1/2`
-- (so `beta = 2π/3`, shoulder `120°`) and `cosElbow = 11/14`.

theorem ikDist_125_72 : ikDist 12.5 7.2 = 12.5 := by
  rw [ikDist, L0,
      show (12.5 * 12.5 + (7.2 - 7.2) * (7.2 - 7.2) : ℝ) = 12.5 ^ 2 by norm_num,
      Real.sqrt_sq (by norm_num)]

theorem minReach_eq : minReach = 10.5 := by
  rw [minReach, L1, L2, abs_of_nonpos (by norm_num)]
  norm_num

theorem maxReach_eq : maxReach = 24.5 := by
  rw [maxReach, L1, L2]; norm_num

theorem distOK_125_72 : ¬(ikDist 12.5 7.2 > maxReach ∨ ikDist 12.5 7.2 < minReach) := by
  rw [ikDist_125_72, maxReach_eq, minReach_eq]
  push_neg
  norm_num

theorem cosBeta_125_72 : cosBeta 12.5 7.2 = -(1 / 2) := by
  rw [cosBeta, ikDist_125_72, L1, L2,
      show (7.5 * 7.5 + 12.5 * 12.5 - 17.5 * 17.5) / (2.0 * 7.5 * 12.5) = (-(1 / 2) : ℝ)
        by norm_num]
  rw [constrain_of_mem (by norm_num) (by norm_num)]

theorem cosElbow_125_72 : cosElbow 12.5 7.2 = 11 / 14 := by
  rw [cosElbow, ikDist_125_72, L1, L2,
      show (7.5 * 7.5 + 17.5 * 17.5 - 12.5 * 12.5) / (2.0 * 7.5 * 17.5) = (11 / 14 : ℝ)
        by norm_num]
  rw [constrain_of_mem (by norm_num) (by norm_num)]

theorem arccos_neg_half : Real.arccos (-(1 / 2)) = 2 * π / 3 := by
  have hc : Real.cos (2 * π / 3) = -(1 / 2) := by
    rw [show (2 * π / 3 : ℝ) = π - π / 3 by ring, Real.cos_pi_sub, Real.cos_pi_div_three]
  rw [← hc, Real.arccos_cos (by positivity) (by linarith [Real.pi_pos])]

theorem atan2_zero_125 : atan2 (7.2 - L0) 12.5 = 0 := by
  rw [atan2, L0, show (7.2 - 7.2 : ℝ) = 0 by norm_num,
      show (⟨12.5, 0⟩ : ℂ) = ((12.5 : ℝ) : ℂ) from Complex.ext rfl rfl]
  exact Complex.arg_ofReal_of_nonneg (by norm_num)

theorem shoulderOf_125_72 : shoulderOf 12.5 7.2 = 120 := by
  rw [shoulderOf, cosBeta_125_72, arccos_neg_half, atan2_zero_125]
  have hpi := Real.pi_ne_zero
  field_simp
  ring

/-- The logical elbow angle is always within [0°, 180°] (the interior
`acos` lands in [0, π]). -/
theorem elbowOf_mem (y z : ℝ) : 0 ≤ elbowOf y z ∧ elbowOf y z ≤ 180 := by
  have h1 := Real.arccos_nonneg (cosElbow y z)
  have h2 := Real.arccos_le_pi (cosElbow y z)
  have hpi := Real.pi_pos
  constructor
  · rw [elbowOf, sub_nonneg]
    rw [div_le_iff₀ hpi]
    nlinarith
  · rw [elbowOf]
    have : 0 ≤ Real.arccos (cosElbow y z) * 180.0 / π := by positivity
    nlinarith

theorem postOK_125_72 :
    ¬(shoulderOf 12.5 7.2 < SERVO_MIN ∨ shoulderOf 12.5 7.2 > SERVO_MAX ∨
      elbowOf 12.5 7.2 < SERVO_MIN ∨ elbowOf 12.5 7.2 > SERVO_MAX) := by
  push_neg
  rw [shoulderOf_125_72, SERVO_MIN, SERVO_MAX]
  obtain ⟨he1, he2⟩ := elbowOf_mem 12.5 7.2
  refine ⟨by norm_num, by norm_num, he1, he2⟩

theorem elbowOf_125_72 : elbowOf 12.5 7.2 = 180 - Real.arccos (11 / 14) * 180 / π := by
  rw [elbowOf, cosElbow_125_72]
  norm_num

theorem calculateIK_125_72 :
    calculateIK 12.5 7.2 = some (120, 180 - Real.arccos (11 / 14) * 180 / π) :=
  calculateIK_some_iff.mpr
    ⟨distOK_125_72, postOK_125_72, by rw [shoulderOf_125_72, elbowOf_125_72]⟩

/-- Witness for C1 at the concrete reachable target (12.5, 7.2). -/
theorem calculateIK_fails_iff_witness :
    calculateIK 12.5 7.2 = some (shoulderOf 12.5 7.2, elbowOf 12.5 7.2) :=
  (calculateIK_fails_iff 12.5 7.2).2 (by rw [calculateIK_125_72]; exact Option.some_ne_none _)

/-- C2: whenever `calculateIK` accepts `(y, z)`, the returned logical elbow
angle is `180° − acos(clamp((L1² + L2² − dist²)/(2·L1·L2), −1, 1))` and the
returned logical shoulder angle is
`(atan2(z − L0, y) + acos(clamp((L1² + dist² − L2²)/(2·L1·dist), −1, 1)))`
in degrees, with `dist = √(y² + (z − L0)²)` and `clamp x = max (−1) (min x 1)`. -/
theorem calculateIK_formulas (y z s e : ℝ)
    (h : calculateIK y z = some (s, e)) :
    e = 180 - Real.arccos (max (-1)
          (min ((L1 ^ 2 + L2 ^ 2 - Real.sqrt (y ^ 2 + (z - L0) ^ 2) ^ 2)
            / (2 * L1 * L2)) 1)) * 180 / π ∧
    s = (atan2 (z - L0) y + Real.arccos (max (-1)
          (min ((L1 ^ 2 + Real.sqrt (y ^ 2 + (z - L0) ^ 2) ^ 2 - L2 ^ 2)
            / (2 * L1 * Real.sqrt (y ^ 2 + (z - L0) ^ 2))) 1))) * 180 / π := by
  have hd : Real.sqrt (y ^ 2 + (z - L0) ^ 2) = ikDist y z := by
    rw [ikDist]; congr 1; ring
  obtain ⟨-, -, hp⟩ := calculateIK_some_iff.mp h
  obtain ⟨hs, he⟩ := Prod.mk.injEq .. ▸ hp
  have hrawE : (L1 ^ 2 + L2 ^ 2 - Real.sqrt (y ^ 2 + (z - L0) ^ 2) ^ 2) / (2 * L1 * L2)
      = (L1 * L1 + L2 * L2 - ikDist y z * ikDist y z) / (2.0 * L1 * L2) := by
    rw [hd]; ring_nf
  have hrawS : (L1 ^ 2 + Real.sqrt (y ^ 2 + (z - L0) ^ 2) ^ 2 - L2 ^ 2)
        / (2 * L1 * Real.sqrt (y ^ 2 + (z - L0) ^ 2))
      = (L1 * L1 + ikDist y z * ikDist y z - L2 * L2) / (2.0 * L1 * ikDist y z) := by
    rw [hd]; ring_nf
  constructor
  · rw [he, elbowOf, cosElbow, constrain_eq_max_min (by norm_num), hrawE]
    norm_num
  · rw [hs, shoulderOf, cosBeta, constrain_eq_max_min (by norm_num), hrawS]
    norm_num

/-- Witness for C2: the accepted target (12.5, 7.2), where the solver
returns shoulder 120° and elbow `180° − acos(11/14)·180/π`. -/
theorem calculateIK_formulas_witness :
    (180 - Real.arccos (11 / 14) * 180 / π : ℝ)
      = 180 - Real.arccos (max (-1)
          (min ((L1 ^ 2 + L2 ^ 2 - Real.sqrt ((12.5 : ℝ) ^ 2 + (7.2 - L0) ^ 2) ^ 2)
            / (2 * L1 * L2)) 1)) * 180 / π ∧
    (120 : ℝ) = (atan2 (7.2 - L0) 12.5 + Real.arccos (max (-1)
          (min ((L1 ^ 2 + Real.sqrt ((12.5 : ℝ) ^ 2 + (7.2 - L0) ^ 2) ^ 2 - L2 ^ 2)
            / (2 * L1 * Real.sqrt ((12.5 : ℝ) ^ 2 + (7.2 - L0) ^ 2))) 1))) * 180 / π :=
  calculateIK_formulas 12.5 7.2 120 (180 - Real.arccos (11 / 14) * 180 / π)
    calculateIK_125_72

-- ============== THE ROUND-TRIP IDENTITY ==============

/-- When the distance test passes, `dist ∈ [10.5, 24.5]`. -/
theorem ik_dist_bounds {y z : ℝ}
    (h : ¬(ikDist y z > maxReach ∨ ikDist y z < minReach)) :
    10.5 ≤ ikDist y z ∧ ikDist y z ≤ 24.5 := by
  push_neg at h
  rw [maxReach_eq] at h
  rw [minReach_eq] at h
  exact ⟨h.2, h.1⟩

theorem ikDist_mul_self (y z : ℝ) :
    ikDist y z * ikDist y z = y * y + (z - L0) * (z - L0) :=
  Real.mul_self_sqrt (by nlinarith [mul_self_nonneg y, mul_self_nonneg (z - L0)])

/-- Inside the annulus the elbow cosine is not clamped. -/
theorem cosElbow_eq {y z : ℝ} (h10 : 10.5 ≤ ikDist y z) (h24 : ikDist y z ≤ 24.5) :
    cosElbow y z
      = (L1 * L1 + L2 * L2 - ikDist y z * ikDist y z) / (2.0 * L1 * L2) := by
  rw [cosElbow, L1, L2]
  refine constrain_of_mem ?_ ?_
  · rw [le_div_iff₀ (by norm_num : (0:ℝ) < 2.0 * 7.5 * 17.5)]
    nlinarith
  · rw [div_le_iff₀ (by norm_num : (0:ℝ) < 2.0 * 7.5 * 17.5)]
    nlinarith

/-- Inside the annulus the shoulder-side cosine is not clamped. -/
theorem cosBeta_eq {y z : ℝ} (h10 : 10.5 ≤ ikDist y z) (h24 : ikDist y z ≤ 24.5) :
    cosBeta y z
      = (L1 * L1 + ikDist y z * ikDist y z - L2 * L2) / (2.0 * L1 * ikDist y z) := by
  have hd0 : (0:ℝ) < ikDist y z := by linarith
  rw [cosBeta, L1, L2]
  refine constrain_of_mem ?_ ?_
  · rw [le_div_iff₀ (by nlinarith : (0:ℝ) < 2.0 * 7.5 * ikDist y z)]
    nlinarith
  · rw [div_le_iff₀ (by nlinarith : (0:ℝ) < 2.0 * 7.5 * ikDist y z)]
    nlinarith

theorem cosElbow_mem (y z : ℝ) : -1 ≤ cosElbow y z ∧ cosElbow y z ≤ 1 := by
  have h := @constrain_mem
    ((L1 * L1 + L2 * L2 - ikDist y z * ikDist y z) / (2.0 * L1 * L2)) (-1.0) 1.0
    (by norm_num)
  rw [cosElbow]
  exact ⟨by linarith [h.1], by linarith [h.2]⟩

theorem cosBeta_mem (y z : ℝ) : -1 ≤ cosBeta y z ∧ cosBeta y z ≤ 1 := by
  have h := @constrain_mem
    ((L1 * L1 + ikDist y z * ikDist y z - L2 * L2) / (2.0 * L1 * ikDist y z)) (-1.0) 1.0
    (by norm_num)
  rw [cosBeta]
  exact ⟨by linarith [h.1], by linarith [h.2]⟩

/-- The committed angles of a successful solve reproduce the target exactly
under the forward-kinematics relation. -/
theorem fk_of_ik {y z sh el : ℝ} (h : calculateIK y z = some (sh, el)) :
    fkY sh el = y ∧ fkZ sh el = z := by
  obtain ⟨hdist, hpost, hp⟩ := calculateIK_some_iff.mp h
  obtain ⟨h10, h24⟩ := ik_dist_bounds hdist
  have hd0 : (0:ℝ) < ikDist y z := by linarith
  have hdne : ikDist y z ≠ 0 := ne_of_gt hd0
  obtain ⟨hsh, hel⟩ := Prod.mk.injEq .. ▸ hp
  have hdd : ikDist y z * ikDist y z = y * y + (z - L0) * (z - L0) := ikDist_mul_self y z
  have hc2 : cosElbow y z = (362.5 - ikDist y z * ikDist y z) / 262.5 := by
    rw [cosElbow_eq h10 h24, L1, L2, div_eq_div_iff (by norm_num) (by norm_num)]
    ring
  have hcβ : cosBeta y z = (ikDist y z * ikDist y z - 250) / (15 * ikDist y z) := by
    rw [cosBeta_eq h10 h24, L1, L2,
        div_eq_div_iff (by nlinarith) (by nlinarith)]
    ring
  have hc2mem := cosElbow_mem y z
  have hcβmem := cosBeta_mem y z
  -- the complex point carrying atan2
  have hw0 : (⟨y, z - L0⟩ : ℂ) ≠ 0 := by
    intro hw
    have hns : Complex.normSq ⟨y, z - L0⟩ = 0 := by rw [hw]; simp
    rw [Complex.normSq_mk] at hns
    nlinarith
  have habs : Complex.abs ⟨y, z - L0⟩ = ikDist y z := by
    rw [Complex.abs_apply, Complex.normSq_mk, ikDist]
  have hcosα : Real.cos (atan2 (z - L0) y) = y / ikDist y z := by
    rw [atan2, Complex.cos_arg hw0, habs]
  have hsinα : Real.sin (atan2 (z - L0) y) = (z - L0) / ikDist y z := by
    rw [atan2, Complex.sin_arg, habs]
  -- cosines and sines of the two arccos angles
  have hcB : Real.cos (Real.arccos (cosBeta y z)) = cosBeta y z :=
    Real.cos_arccos hcβmem.1 hcβmem.2
  have hsB : Real.sin (Real.arccos (cosBeta y z))
      = Real.sqrt (1 - cosBeta y z ^ 2) := Real.sin_arccos _
  have hcE : Real.cos (Real.arccos (cosElbow y z)) = cosElbow y z :=
    Real.cos_arccos hc2mem.1 hc2mem.2
  have hsE : Real.sin (Real.arccos (cosElbow y z))
      = Real.sqrt (1 - cosElbow y z ^ 2) := Real.sin_arccos _
  -- the two key algebraic identities
  have hc : L1 - L2 * cosElbow y z = ikDist y z * cosBeta y z := by
    rw [hc2, hcβ, L1, L2]
    field_simp
    ring
  have key : L2 * Real.sqrt (1 - cosElbow y z ^ 2)
      = ikDist y z * Real.sqrt (1 - cosBeta y z ^ 2) := by
    have hnn2 : 0 ≤ 1 - cosElbow y z ^ 2 := by nlinarith [hc2mem.1, hc2mem.2]
    have hnnβ : 0 ≤ 1 - cosBeta y z ^ 2 := by nlinarith [hcβmem.1, hcβmem.2]
    have ha : 0 ≤ L2 * Real.sqrt (1 - cosElbow y z ^ 2) :=
      mul_nonneg (by rw [L2]; norm_num) (Real.sqrt_nonneg _)
    have hb : 0 ≤ ikDist y z * Real.sqrt (1 - cosBeta y z ^ 2) :=
      mul_nonneg hd0.le (Real.sqrt_nonneg _)
    have hsq : (L2 * Real.sqrt (1 - cosElbow y z ^ 2)) ^ 2
        = (ikDist y z * Real.sqrt (1 - cosBeta y z ^ 2)) ^ 2 := by
      rw [mul_pow, mul_pow, Real.sq_sqrt hnn2, Real.sq_sqrt hnnβ, hc2, hcβ, L2]
      field_simp
      ring
    rw [← Real.sqrt_sq ha, ← Real.sqrt_sq hb, hsq]
  -- abbreviations
  have hshoulder : sh = (atan2 (z - L0) y + Real.arccos (cosBeta y z)) * 180.0 / π := by
    rw [hsh, shoulderOf]
  have helbow : el = 180.0 - Real.arccos (cosElbow y z) * 180.0 / π := by
    rw [hel, elbowOf]
  have hpne := Real.pi_ne_zero
  have hrad1 : toRad sh = atan2 (z - L0) y + Real.arccos (cosBeta y z) := by
    rw [hshoulder, toRad, show (180.0 : ℝ) = 180 from by norm_num]
    field_simp
  have hrad2 : toRad (sh - el)
      = atan2 (z - L0) y + Real.arccos (cosBeta y z) + Real.arccos (cosElbow y z) - π := by
    rw [hshoulder, helbow, toRad, show (180.0 : ℝ) = 180 from by norm_num]
    field_simp
    ring
  constructor
  · rw [fkY, hrad1, hrad2]
    calc L1 * Real.cos (atan2 (z - L0) y + Real.arccos (cosBeta y z))
          + L2 * Real.cos (atan2 (z - L0) y + Real.arccos (cosBeta y z)
              + Real.arccos (cosElbow y z) - π)
        = ikDist y z * (Real.cos (atan2 (z - L0) y + Real.arccos (cosBeta y z))
              * Real.cos (Real.arccos (cosBeta y z))
            + Real.sin (atan2 (z - L0) y + Real.arccos (cosBeta y z))
              * Real.sin (Real.arccos (cosBeta y z))) := by
          rw [Real.cos_sub, Real.cos_pi, Real.sin_pi, Real.cos_add
                (atan2 (z - L0) y + Real.arccos (cosBeta y z)) (Real.arccos (cosElbow y z)),
              hcB, hsB, hcE, hsE]
          linear_combination
            (Real.cos (atan2 (z - L0) y + Real.arccos (cosBeta y z))) * hc
            + (Real.sin (atan2 (z - L0) y + Real.arccos (cosBeta y z))) * key
      _ = ikDist y z * Real.cos (atan2 (z - L0) y + Real.arccos (cosBeta y z)
              - Real.arccos (cosBeta y z)) := by rw [Real.cos_sub]
      _ = ikDist y z * Real.cos (atan2 (z - L0) y) := by
          rw [add_sub_cancel_right]
      _ = y := by rw [hcosα]; field_simp
  · rw [fkZ, hrad1, hrad2]
    calc L0 + L1 * Real.sin (atan2 (z - L0) y + Real.arccos (cosBeta y z))
          + L2 * Real.sin (atan2 (z - L0) y + Real.arccos (cosBeta y z)
              + Real.arccos (cosElbow y z) - π)
        = L0 + ikDist y z * (Real.sin (atan2 (z - L0) y + Real.arccos (cosBeta y z))
              * Real.cos (Real.arccos (cosBeta y z))
            - Real.cos (atan2 (z - L0) y + Real.arccos (cosBeta y z))
              * Real.sin (Real.arccos (cosBeta y z))) := by
          rw [Real.sin_sub, Real.cos_pi, Real.sin_pi, Real.sin_add
                (atan2 (z - L0) y + Real.arccos (cosBeta y z)) (Real.arccos (cosElbow y z)),
              hcB, hsB, hcE, hsE]
          linear_combination
            (Real.sin (atan2 (z - L0) y + Real.arccos (cosBeta y z))) * hc
            - (Real.cos (atan2 (z - L0) y + Real.arccos (cosBeta y z))) * key
      _ = L0 + ikDist y z * Real.sin (atan2 (z - L0) y + Real.arccos (cosBeta y z)
              - Real.arccos (cosBeta y z)) := by rw [Real.sin_sub]
      _ = L0 + ikDist y z * Real.sin (atan2 (z - L0) y) := by
          rw [add_sub_cancel_right]
      _ = z := by rw [hsinα]; field_simp

/-- C3 (amended): for every target inside the workspace box that
`calculateIK` accepts, the returned logical angles lie in [0°, 180°] and the
forward-kinematics relation reconstructs the target exactly (so in
particular within any tolerance ε ≥ 0). The original claim — that every
point of the box whose distance lies inside the annulus is accepted — fails
(see the counterexample at (5, 17)). -/
theorem ik_roundtrip (y z sh el : ℝ)
    (_hbox : Y_MIN ≤ y ∧ y ≤ Y_MAX ∧ Z_MIN ≤ z ∧ z ≤ Z_MAX)
    (h : calculateIK y z = some (sh, el)) :
    (0 ≤ sh ∧ sh ≤ 180 ∧ 0 ≤ el ∧ el ≤ 180) ∧ fkY sh el = y ∧ fkZ sh el = z := by
  obtain ⟨-, hpost, hp⟩ := calculateIK_some_iff.mp h
  push_neg at hpost
  rw [SERVO_MIN, SERVO_MAX] at hpost
  obtain ⟨hsh, hel⟩ := Prod.mk.injEq .. ▸ hp
  refine ⟨⟨?_, ?_, ?_, ?_⟩, fk_of_ik h⟩
  · rw [hsh]; exact hpost.1
  · rw [hsh]; exact le_of_not_lt (fun hlt => (not_lt.mpr hpost.2.1) hlt)
  · rw [hel]; exact hpost.2.2.1
  · rw [hel]; exact hpost.2.2.2

/-- Witness for C3 at the accepted in-box target (12.5, 7.2). -/
theorem ik_roundtrip_witness :
    ((0:ℝ) ≤ 120 ∧ (120:ℝ) ≤ 180 ∧
      0 ≤ 180 - Real.arccos (11 / 14) * 180 / π ∧
      180 - Real.arccos (11 / 14) * 180 / π ≤ 180) ∧
    fkY 120 (180 - Real.arccos (11 / 14) * 180 / π) = 12.5 ∧
    fkZ 120 (180 - Real.arccos (11 / 14) * 180 / π) = 7.2 :=
  ik_roundtrip 12.5 7.2 120 (180 - Real.arccos (11 / 14) * 180 / π)
    ⟨by rw [Y_MIN]; norm_num, by rw [Y_MAX]; norm_num,
     by rw [Z_MIN]; norm_num, by rw [Z_MAX]; norm_num⟩
    calculateIK_125_72

/-- Counterexample to C3 as stated: the target (5, 17) lies inside the
workspace box and its planar distance √121.04 lies inside the reachable
annulus [10.5, 24.5], yet `calculateIK` rejects it — the computed shoulder
angle exceeds 180° and the servo-limit post-check fails. -/
theorem ik_box_counterexample :
    (Y_MIN ≤ (5:ℝ) ∧ (5:ℝ) ≤ Y_MAX ∧ Z_MIN ≤ (17:ℝ) ∧ (17:ℝ) ≤ Z_MAX) ∧
    minReach ≤ ikDist 5 17 ∧ ikDist 5 17 ≤ maxReach ∧
    calculateIK 5 17 = none := by
  have hd : ikDist 5 17 = Real.sqrt 121.04 := by
    rw [ikDist, L0, show (5 * 5 + (17 - 7.2) * (17 - 7.2) : ℝ) = 121.04 by norm_num]
  have h10 : (10.5:ℝ) ≤ ikDist 5 17 := by
    rw [hd, ← Real.sqrt_sq (show (0:ℝ) ≤ 10.5 by norm_num)]
    exact Real.sqrt_le_sqrt (by norm_num)
  have h24 : ikDist 5 17 ≤ 24.5 := by
    rw [hd, ← Real.sqrt_sq (show (0:ℝ) ≤ 24.5 by norm_num)]
    exact Real.sqrt_le_sqrt (by norm_num)
  have hd0 : (0:ℝ) < ikDist 5 17 := by linarith
  have hdd : ikDist 5 17 * ikDist 5 17 = 121.04 := by
    rw [ikDist_mul_self, L0]
    norm_num
  have hcβ : cosBeta 5 17 = -128.96 / (15 * ikDist 5 17) := by
    rw [cosBeta_eq h10 h24, L1, L2,
        div_eq_div_iff (by nlinarith) (by nlinarith)]
    nlinarith [hdd]
  -- the complex point behind atan2(9.8, 5)
  have hw0 : (⟨5, 17 - L0⟩ : ℂ) ≠ 0 := by
    intro hw
    have hre : (⟨5, 17 - L0⟩ : ℂ).re = 0 := by rw [hw]; rfl
    norm_num at hre
  have habs : Complex.abs ⟨5, 17 - L0⟩ = ikDist 5 17 := by
    rw [Complex.abs_apply, Complex.normSq_mk, ikDist]
  have hα0 : 0 ≤ atan2 (17 - L0) 5 := by
    rw [atan2]
    rw [Complex.arg_nonneg_iff]
    rw [L0]
    norm_num
  have hcosα : Real.cos (atan2 (17 - L0) 5) = 5 / ikDist 5 17 := by
    rw [atan2, Complex.cos_arg hw0, habs]
  -- β = arccos(cosBeta) exceeds π − α because cos β < cos (π − α)
  have hβgt : π - atan2 (17 - L0) 5 < Real.arccos (cosBeta 5 17) := by
    by_contra hle
    push_neg at hle
    have hcmp := Real.cos_le_cos_of_nonneg_of_le_pi
      (Real.arccos_nonneg _) (by linarith [hα0]) hle
    rw [Real.cos_arccos (cosBeta_mem 5 17).1 (cosBeta_mem 5 17).2,
        Real.cos_pi_sub, hcosα, hcβ,
        show -(5 / ikDist 5 17) = (-5) / ikDist 5 17 by ring,
        div_le_div_iff₀ hd0 (by nlinarith : (0:ℝ) < 15 * ikDist 5 17)] at hcmp
    nlinarith [hcmp, hd0]
  have hshoulder : shoulderOf 5 17 > SERVO_MAX := by
    rw [shoulderOf, SERVO_MAX, gt_iff_lt, lt_div_iff₀ Real.pi_pos]
    nlinarith [hβgt, Real.pi_pos]
  refine ⟨⟨by rw [Y_MIN]; norm_num, by rw [Y_MAX]; norm_num,
           by rw [Z_MIN]; norm_num, by rw [Z_MAX]; norm_num⟩,
          by rw [minReach_eq]; exact h10, by rw [maxReach_eq]; exact h24, ?_⟩
  rw [calculateIK, if_neg (by push_neg; rw [maxReach_eq, minReach_eq]; exact ⟨h24, h10⟩),
      if_pos (Or.inr (Or.inl hshoulder))]

-- ============== ERROR OUTCOMES LEAVE THE STATE UNCHANGED ==============

theorem moveToPosition_error {s : ArmState} {y z : ℝ} {r : Reason}
    (h : (moveToPosition s y z).2 = .error r) : (moveToPosition s y z).1 = s := by
  simp only [moveToPosition] at h ⊢
  rcases hik : calculateIK (constrain y Y_MIN Y_MAX) (constrain z Z_MIN Z_MAX) with _ | p
  · simp [hik]
  · rcases p with ⟨sh, el⟩
    simp [hik] at h

theorem moveRelative_error {s : ArmState} {dy dz : ℝ} {r : Reason}
    (h : (moveRelative s dy dz).2 = .error r) : (moveRelative s dy dz).1 = s := by
  rw [moveRelative] at h ⊢
  exact moveToPosition_error h

theorem serialG_error {s : ArmState} {u : List Char} {r : Reason}
    (h : (serialG s u).2 = .error r) : (serialG s u).1 = s := by
  simp only [serialG] at h ⊢
  split_ifs at h ⊢ with hi
  · exact moveToPosition_error h
  · rfl

theorem btMove_error {s : ArmState} {rem : List Char} {r : Reason}
    (h : (btMove s rem).2 = .error r) : (btMove s rem).1 = s := by
  simp only [btMove] at h ⊢
  split_ifs at h ⊢
  all_goals first
    | exact moveRelative_error h
    | rfl

theorem btPosition_error {s : ArmState} {rem : List Char} {r : Reason}
    (h : (btPosition s rem).2 = .error r) : (btPosition s rem).1 = s := by
  simp only [btPosition] at h ⊢
  split_ifs at h ⊢ with hi
  · exact moveToPosition_error h
  · rfl

theorem btGripper_error {s : ArmState} {rem : List Char} {r : Reason}
    (h : (btGripper s rem).2 = .error r) : (btGripper s rem).1 = s := by
  simp only [btGripper] at h
  split_ifs at h

theorem serial_error_unchanged (s : ArmState) (cs : List Char) (r : Reason)
    (h : (processSerialCommand s cs).2 = .error r) :
    (processSerialCommand s cs).1 = s := by
  suffices hs : (processSerialCommand s cs).2 = .error r →
      (processSerialCommand s cs).1 = s from hs h
  clear h
  simp only [processSerialCommand]
  by_cases h1 : (upper cs).headD '?' = 'F'
  · rw [if_pos h1]; exact fun h => moveRelative_error h
  rw [if_neg h1]
  by_cases h2 : (upper cs).headD '?' = 'B'
  · rw [if_pos h2]; exact fun h => moveRelative_error h
  rw [if_neg h2]
  by_cases h3 : (upper cs).headD '?' = 'U'
  · rw [if_pos h3]; exact fun h => moveRelative_error h
  rw [if_neg h3]
  by_cases h4 : (upper cs).headD '?' = 'D'
  · rw [if_pos h4]; exact fun h => moveRelative_error h
  rw [if_neg h4]
  by_cases h5 : (upper cs).headD '?' = 'G'
  · rw [if_pos h5]; exact fun h => serialG_error h
  rw [if_neg h5]
  by_cases h6 : (upper cs).headD '?' = 'H'
  · rw [if_pos h6]; exact fun h => absurd h (by simp)
  rw [if_neg h6]
  by_cases h7 : (upper cs).headD '?' = 'P'
  · rw [if_pos h7]; exact fun h => absurd h (by simp)
  rw [if_neg h7]
  by_cases h8 : (upper cs).headD '?' = 'R'
  · rw [if_pos h8]; exact fun h => absurd h (by simp)
  rw [if_neg h8]
  by_cases h9 : (upper cs).headD '?' = 'W'
  · rw [if_pos h9]; exact fun h => absurd h (by simp)
  rw [if_neg h9]
  by_cases h10 : (upper cs).headD '?' = 'C'
  · rw [if_pos h10]; exact fun h => absurd h (by simp)
  rw [if_neg h10]
  by_cases h11 : (upper cs).headD '?' = 'O'
  · rw [if_pos h11]; exact fun h => absurd h (by simp)
  rw [if_neg h11]
  by_cases h12 : (upper cs).headD '?' = 'X'
  · rw [if_pos h12]; exact fun h => absurd h (by simp)
  rw [if_neg h12]
  by_cases h13 : (upper cs).headD '?' = 'T'
  · rw [if_pos h13]; exact fun h => absurd h (by simp)
  rw [if_neg h13]
  exact fun _ => rfl

theorem bt_error_unchanged (s : ArmState) (cs : List Char) (r : Reason)
    (h : (processBluetoothCommand s cs).2 = .error r) :
    (processBluetoothCommand s cs).1 = s := by
  suffices hs : (processBluetoothCommand s cs).2 = .error r →
      (processBluetoothCommand s cs).1 = s from hs h
  clear h
  simp only [processBluetoothCommand]
  by_cases h1 : lower cs = "home".data
  · rw [if_pos h1]; exact fun h => absurd h (by simp)
  rw [if_neg h1]
  by_cases h2 : lower cs = "status".data
  · rw [if_pos h2]; exact fun h => absurd h (by simp)
  rw [if_neg h2]
  by_cases h3 : indexOfZ (lower cs) ':' < 0
  · rw [if_pos h3]; exact fun _ => rfl
  rw [if_neg h3]
  by_cases h4 : (lower cs).take (indexOfZ (lower cs) ':').toNat = "move".data
  · rw [if_pos h4]; exact fun h => btMove_error h
  rw [if_neg h4]
  by_cases h5 : (lower cs).take (indexOfZ (lower cs) ':').toNat = "position".data
  · rw [if_pos h5]; exact fun h => btPosition_error h
  rw [if_neg h5]
  by_cases h6 : (lower cs).take (indexOfZ (lower cs) ':').toNat = "base".data
  · rw [if_pos h6]; exact fun h => absurd h (by simp)
  rw [if_neg h6]
  by_cases h7 : (lower cs).take (indexOfZ (lower cs) ':').toNat = "wrist".data
  · rw [if_pos h7]; exact fun h => absurd h (by simp)
  rw [if_neg h7]
  by_cases h8 : (lower cs).take (indexOfZ (lower cs) ':').toNat = "gripper".data
  · rw [if_pos h8]; exact fun h => btGripper_error h
  rw [if_neg h8]
  exact fun _ => rfl

/-- C6 (amended): the malformed-input classes the code detects — missing
comma in a two-field command, unknown leading letter, no-colon field input,
unknown first token, unknown move direction — yield an `Error` outcome with
a specific reason tag, and every `Error` outcome from either dispatcher
leaves the state unchanged. (A non-numeric operand, however, is parsed as 0
by `toFloat` and executed; see the counterexample.) -/
theorem parse_errors (s : ArmState) :
    (∀ cs r, (processSerialCommand s cs).2 = .error r →
      (processSerialCommand s cs).1 = s) ∧
    (∀ cs r, (processBluetoothCommand s cs).2 = .error r →
      (processBluetoothCommand s cs).1 = s) ∧
    processSerialCommand s "G55".data = (s, .error .invalidFormat) ∧
    processSerialCommand s "Q5".data = (s, .error .unknownCommand) ∧
    processBluetoothCommand s "garbage".data = (s, .error .invalidFormat) ∧
    processBluetoothCommand s "move:sideways:5".data = (s, .error .unknownDirection) ∧
    processBluetoothCommand s "position:15".data = (s, .error .invalidPosition) ∧
    processBluetoothCommand s "fly:10".data = (s, .error .unknownCommand) :=
  ⟨serial_error_unchanged s, bt_error_unchanged s, rfl, rfl, rfl, rfl, rfl, rfl⟩

/-- Witness for C6 at the concrete unknown command `Q5` from the home pose. -/
theorem parse_errors_witness :
    (processSerialCommand initState "Q5".data).1 = initState :=
  (parse_errors initState).1 "Q5".data Reason.unknownCommand rfl

/-- Counterexample to C6 as stated: the malformed operand in `base:abc` is
not reported as an error — `toFloat` parses it as 0, the dispatcher reports
success, and the base angle changes (90 → 0 from the home pose), so a
non-numeric operand both no-ops silently as a parse and executes a motion. -/
theorem parse_errors_counterexample :
    (processBluetoothCommand initState "base:abc".data).2 = MotionResult.ok ∧
    (processBluetoothCommand initState "base:abc".data).1.baseAngle = 0 ∧
    initState.baseAngle = 90 ∧
    (processBluetoothCommand initState "base:abc".data).1 ≠ initState := by
  have hred : processBluetoothCommand initState "base:abc".data
      = (setBase initState (toFloat "abc".data), .ok) := rfl
  have hang : (setBase initState (toFloat "abc".data)).baseAngle = 0 := by
    show constrain (toFloat "abc".data) SERVO_MIN (SERVO_MAX - BASE_OFFSET) = 0
    rw [toFloat_abc, SERVO_MIN, SERVO_MAX, BASE_OFFSET,
        constrain_of_mem (by norm_num) (by norm_num)]
  refine ⟨by rw [hred], by rw [hred]; exact hang, rfl, ?_⟩
  rw [hred]
  intro heq
  have hb := congrArg ArmState.baseAngle heq
  rw [hang] at hb
  have : initState.baseAngle = 90 := rfl
  rw [this] at hb
  norm_num at hb

-- ============== CLASSIFYING DISPATCHER OUTPUTS ==============

/-- Every command's resulting state is the old state, a committed move, the
home pose, or a single auxiliary-servo update. -/
def PrimStep (s t : ArmState) : Prop :=
  t = s ∨ (∃ y z, t = (moveToPosition s y z).1) ∨ t = goToHome s ∨
  (∃ a, t = setBase s a) ∨ (∃ a, t = setWrist s a) ∨ (∃ a, t = setGripper s a)

theorem serialG_prim (s : ArmState) (u : List Char) : PrimStep s (serialG s u).1 := by
  simp only [serialG]
  split_ifs
  · exact Or.inr (Or.inl ⟨_, _, rfl⟩)
  · exact Or.inl rfl

theorem btMove_prim (s : ArmState) (rem : List Char) : PrimStep s (btMove s rem).1 := by
  simp only [btMove]
  split_ifs
  all_goals first
    | exact Or.inr (Or.inl ⟨_, _, rfl⟩)
    | exact Or.inl rfl

theorem btPosition_prim (s : ArmState) (rem : List Char) :
    PrimStep s (btPosition s rem).1 := by
  simp only [btPosition]
  split_ifs
  · exact Or.inr (Or.inl ⟨_, _, rfl⟩)
  · exact Or.inl rfl

theorem btGripper_prim (s : ArmState) (rem : List Char) :
    PrimStep s (btGripper s rem).1 := by
  simp only [btGripper]
  split_ifs
  all_goals exact Or.inr (Or.inr (Or.inr (Or.inr (Or.inr ⟨_, rfl⟩))))

theorem serial_prim (s : ArmState) (cs : List Char) :
    PrimStep s (processSerialCommand s cs).1 := by
  simp only [processSerialCommand]
  by_cases h1 : (upper cs).headD '?' = 'F'
  · rw [if_pos h1]; exact Or.inr (Or.inl ⟨_, _, rfl⟩)
  rw [if_neg h1]
  by_cases h2 : (upper cs).headD '?' = 'B'
  · rw [if_pos h2]; exact Or.inr (Or.inl ⟨_, _, rfl⟩)
  rw [if_neg h2]
  by_cases h3 : (upper cs).headD '?' = 'U'
  · rw [if_pos h3]; exact Or.inr (Or.inl ⟨_, _, rfl⟩)
  rw [if_neg h3]
  by_cases h4 : (upper cs).headD '?' = 'D'
  · rw [if_pos h4]; exact Or.inr (Or.inl ⟨_, _, rfl⟩)
  rw [if_neg h4]
  by_cases h5 : (upper cs).headD '?' = 'G'
  · rw [if_pos h5]; exact serialG_prim s (upper cs)
  rw [if_neg h5]
  by_cases h6 : (upper cs).headD '?' = 'H'
  · rw [if_pos h6]; exact Or.inr (Or.inr (Or.inl rfl))
  rw [if_neg h6]
  by_cases h7 : (upper cs).headD '?' = 'P'
  · rw [if_pos h7]; exact Or.inl rfl
  rw [if_neg h7]
  by_cases h8 : (upper cs).headD '?' = 'R'
  · rw [if_pos h8]; exact Or.inr (Or.inr (Or.inr (Or.inl ⟨_, rfl⟩)))
  rw [if_neg h8]
  by_cases h9 : (upper cs).headD '?' = 'W'
  · rw [if_pos h9]; exact Or.inr (Or.inr (Or.inr (Or.inr (Or.inl ⟨_, rfl⟩))))
  rw [if_neg h9]
  by_cases h10 : (upper cs).headD '?' = 'C'
  · rw [if_pos h10]; exact Or.inr (Or.inr (Or.inr (Or.inr (Or.inr ⟨_, rfl⟩))))
  rw [if_neg h10]
  by_cases h11 : (upper cs).headD '?' = 'O'
  · rw [if_pos h11]; exact Or.inr (Or.inr (Or.inr (Or.inr (Or.inr ⟨_, rfl⟩))))
  rw [if_neg h11]
  by_cases h12 : (upper cs).headD '?' = 'X'
  · rw [if_pos h12]; exact Or.inr (Or.inr (Or.inr (Or.inr (Or.inr ⟨_, rfl⟩))))
  rw [if_neg h12]
  by_cases h13 : (upper cs).headD '?' = 'T'
  · rw [if_pos h13]; exact Or.inr (Or.inr (Or.inr (Or.inr (Or.inr ⟨_, rfl⟩))))
  rw [if_neg h13]
  exact Or.inl rfl

theorem bt_prim (s : ArmState) (cs : List Char) :
    PrimStep s (processBluetoothCommand s cs).1 := by
  simp only [processBluetoothCommand]
  by_cases h1 : lower cs = "home".data
  · rw [if_pos h1]; exact Or.inr (Or.inr (Or.inl rfl))
  rw [if_neg h1]
  by_cases h2 : lower cs = "status".data
  · rw [if_pos h2]; exact Or.inl rfl
  rw [if_neg h2]
  by_cases h3 : indexOfZ (lower cs) ':' < 0
  · rw [if_pos h3]; exact Or.inl rfl
  rw [if_neg h3]
  by_cases h4 : (lower cs).take (indexOfZ (lower cs) ':').toNat = "move".data
  · rw [if_pos h4]; exact btMove_prim s _
  rw [if_neg h4]
  by_cases h5 : (lower cs).take (indexOfZ (lower cs) ':').toNat = "position".data
  · rw [if_pos h5]; exact btPosition_prim s _
  rw [if_neg h5]
  by_cases h6 : (lower cs).take (indexOfZ (lower cs) ':').toNat = "base".data
  · rw [if_pos h6]; exact Or.inr (Or.inr (Or.inr (Or.inl ⟨_, rfl⟩)))
  rw [if_neg h6]
  by_cases h7 : (lower cs).take (indexOfZ (lower cs) ':').toNat = "wrist".data
  · rw [if_pos h7]; exact Or.inr (Or.inr (Or.inr (Or.inr (Or.inl ⟨_, rfl⟩))))
  rw [if_neg h7]
  by_cases h8 : (lower cs).take (indexOfZ (lower cs) ':').toNat = "gripper".data
  · rw [if_pos h8]; exact btGripper_prim s _
  rw [if_neg h8]
  exact Or.inl rfl

/-- The two possible outcomes of `moveToPosition` on the state. -/
theorem moveToPosition_state (s : ArmState) (y z : ℝ) :
    (moveToPosition s y z).1 = s ∨
    ∃ sh el, calculateIK (constrain y Y_MIN Y_MAX) (constrain z Z_MIN Z_MAX)
        = some (sh, el) ∧
      (moveToPosition s y z).1
        = { s with
            shoulderAngle := sh,
            elbowAngle := el,
            currentY := constrain y Y_MIN Y_MAX,
            currentZ := constrain z Z_MIN Z_MAX } := by
  simp only [moveToPosition]
  rcases hik : calculateIK (constrain y Y_MIN Y_MAX) (constrain z Z_MIN Z_MAX)
    with _ | ⟨sh, el⟩
  · left; rfl
  · right; exact ⟨sh, el, rfl, rfl⟩

theorem prim_box {s t : ArmState} (hp : PrimStep s t)
    (ih : 5 ≤ s.currentY ∧ s.currentY ≤ 40 ∧ 5 ≤ s.currentZ ∧ s.currentZ ≤ 30) :
    5 ≤ t.currentY ∧ t.currentY ≤ 40 ∧ 5 ≤ t.currentZ ∧ t.currentZ ≤ 30 := by
  have hY : Y_MIN ≤ Y_MAX := by rw [Y_MIN, Y_MAX]; norm_num
  have hZ : Z_MIN ≤ Z_MAX := by rw [Z_MIN, Z_MAX]; norm_num
  rcases hp with h | ⟨y, z, h⟩ | h | ⟨a, h⟩ | ⟨a, h⟩ | ⟨a, h⟩
  · rw [h]; exact ih
  · rcases moveToPosition_state s y z with hs | ⟨sh, el, -, hs⟩
    · rw [h, hs]; exact ih
    · rw [h, hs]
      have hcy := @constrain_mem y Y_MIN Y_MAX hY
      have hcz := @constrain_mem z Z_MIN Z_MAX hZ
      rw [Y_MIN, Y_MAX] at hcy
      rw [Z_MIN, Z_MAX] at hcz
      dsimp only
      rw [Y_MIN, Y_MAX, Z_MIN, Z_MAX]
      exact ⟨by linarith [hcy.1], by linarith [hcy.2], by linarith [hcz.1],
             by linarith [hcz.2]⟩
  · rw [h, goToHome_eq]
    norm_num [initState]
  · rw [h]; exact ih
  · rw [h]; exact ih
  · rw [h]; exact ih

/-- C10: in every reachable program state the stored end-effector position
lies inside the workspace box `[Y_MIN, Y_MAX] × [Z_MIN, Z_MAX] = [5, 40] × [5, 30]`:
it holds at startup and is preserved by every command from either channel. -/
theorem workspace_invariant (s : ArmState) (h : Reachable s) :
    5 ≤ s.currentY ∧ s.currentY ≤ 40 ∧ 5 ≤ s.currentZ ∧ s.currentZ ≤ 30 := by
  induction h with
  | init => norm_num [initState]
  | serial s' cs hr ih => exact prim_box (serial_prim s' cs) ih
  | bluetooth s' cs hr ih => exact prim_box (bt_prim s' cs) ih

/-- Witness for C10 at the startup state. -/
theorem workspace_invariant_witness :
    5 ≤ initState.currentY ∧ initState.currentY ≤ 40 ∧
    5 ≤ initState.currentZ ∧ initState.currentZ ≤ 30 :=
  workspace_invariant initState Reachable.init

/-- The forward kinematics of the home angles: Y matches the stored 17.5
exactly, but Z is 14.7 while the code stores the measured 15.0. -/
theorem fk_home : fkY 90 90 = 17.5 ∧ fkZ 90 90 = 14.7 := by
  have h1 : toRad 90 = π / 2 := by rw [toRad]; ring
  have h2 : toRad (90 - 90 : ℝ) = 0 := by
    rw [toRad]
    norm_num
  constructor
  · rw [fkY, h1, h2, Real.cos_pi_div_two, Real.cos_zero, L1, L2]
    norm_num
  · rw [fkZ, h1, h2, Real.sin_pi_div_two, Real.sin_zero, L0, L1, L2]
    norm_num

theorem prim_fk {s t : ArmState} (hp : PrimStep s t)
    (ih : s.currentY = fkY s.shoulderAngle s.elbowAngle ∧
      |s.currentZ - fkZ s.shoulderAngle s.elbowAngle| ≤ 0.3) :
    t.currentY = fkY t.shoulderAngle t.elbowAngle ∧
      |t.currentZ - fkZ t.shoulderAngle t.elbowAngle| ≤ 0.3 := by
  rcases hp with h | ⟨y, z, h⟩ | h | ⟨a, h⟩ | ⟨a, h⟩ | ⟨a, h⟩
  · rw [h]; exact ih
  · rcases moveToPosition_state s y z with hs | ⟨sh, el, hik, hs⟩
    · rw [h, hs]; exact ih
    · rw [h, hs]
      obtain ⟨hfy, hfz⟩ := fk_of_ik hik
      dsimp only
      rw [hfy, hfz, sub_self, abs_zero]
      norm_num
  · rw [h, goToHome_eq]
    constructor
    · show (17.5 : ℝ) = fkY 90 90
      exact fk_home.1.symm
    · show |(15.0 : ℝ) - fkZ 90 90| ≤ 0.3
      rw [fk_home.2, show (15.0 - 14.7 : ℝ) = 0.3 by norm_num,
          abs_of_nonneg (by norm_num)]
  · rw [h]; exact ih
  · rw [h]; exact ih
  · rw [h]; exact ih

/-- C9 (amended): in every reachable state the stored Y equals the
forward kinematics of the stored angles exactly, and the stored Z is within
0.3 cm of it — exact for every committed move (the four values are updated
together), with the 0.3 cm slack exactly absorbing the home pose, whose
measured `currentZ = 15.0` differs from the FK value 14.7. The original
exact-consistency claim fails at the home pose (see the counterexample). -/
theorem fk_invariant (s : ArmState) (h : Reachable s) :
    s.currentY = fkY s.shoulderAngle s.elbowAngle ∧
    |s.currentZ - fkZ s.shoulderAngle s.elbowAngle| ≤ 0.3 := by
  induction h with
  | init =>
    constructor
    · show (17.5 : ℝ) = fkY 90 90
      exact fk_home.1.symm
    · show |(15.0 : ℝ) - fkZ 90 90| ≤ 0.3
      rw [fk_home.2, show (15.0 - 14.7 : ℝ) = 0.3 by norm_num,
          abs_of_nonneg (by norm_num)]
  | serial s' cs hr ih => exact prim_fk (serial_prim s' cs) ih
  | bluetooth s' cs hr ih => exact prim_fk (bt_prim s' cs) ih

/-- Witness for C9 at the startup state. -/
theorem fk_invariant_witness :
    initState.currentY = fkY initState.shoulderAngle initState.elbowAngle ∧
    |initState.currentZ - fkZ initState.shoulderAngle initState.elbowAngle| ≤ 0.3 :=
  fk_invariant initState Reachable.init

/-- Counterexample to C9 as stated: the startup/home state is reachable and
stores `currentZ = 15.0`, but the forward kinematics of its angles
(90°, 90°) gives Z = 14.7 — the stored position is not exactly consistent
with the stored angles. -/
theorem fk_invariant_counterexample :
    Reachable initState ∧
    fkZ initState.shoulderAngle initState.elbowAngle = 14.7 ∧
    initState.currentZ = 15 ∧
    initState.currentZ ≠ fkZ initState.shoulderAngle initState.elbowAngle := by
  refine ⟨Reachable.init, fk_home.2, by show (15.0 : ℝ) = 15; norm_num, ?_⟩
  show (15.0 : ℝ) ≠ fkZ 90 90
  rw [fk_home.2]
  norm_num
